import Mathlib

/-!
Shallow embedding of the aws-fsbp compliance scanner (TypeScript source under
src/): a rule-based checker that visits CDK resource-declaration nodes and
emits diagnostics.  Optional / deploy-time-unresolved values are modelled with
`Option (Resolvable α)`: `none` is TypeScript `undefined`, `some .unresolved`
is an `IResolvable` token object (truthy in JavaScript), `some (.concrete a)`
is a concrete value.  Checks that can throw at runtime (the IAM ones, which
call `.some` on possibly-undefined arrays) return `Except Unit _`.
-/

namespace AwsFsbp

inductive Severity where
  | error
  | warning
deriving DecidableEq, Repr

structure Diagnostic where
  severity : Severity
  message : String
deriving DecidableEq, Repr

/-- A value that may be a deploy-time token (`IResolvable`). -/
inductive Resolvable (α : Type) where
  | concrete (val : α)
  | unresolved
deriving DecidableEq, Repr

/-- JavaScript truthiness of a `boolean | IResolvable | undefined` value:
`undefined` is falsy, an `IResolvable` token is an object and hence truthy,
a concrete boolean is itself. -/
def truthy : Option (Resolvable Bool) → Bool
  | none => false
  | some .unresolved => true
  | some (.concrete b) => b

/-- JavaScript truthiness of a `string | undefined` value: `undefined` and the
empty string are falsy. -/
def truthyStr : Option String → Bool
  | none => false
  | some s => !(s = "")

/-- JavaScript truthiness of a `number | undefined` value: `undefined` and `0`
are falsy. -/
def truthyNum : Option Int → Bool
  | none => false
  | some n => !(n = 0)

/-- `s.endsWith(suffix)` of JavaScript, as a suffix test on the character
lists of the two strings. -/
def jsEndsWith (s suffix : String) : Bool :=
  suffix.data.isSuffixOf s.data

/-! ## Configuration structures (each leaf is an optional boolean) -/

structure ApiGatewayConfig where
  logging : Option Bool
  ssl : Option Bool
  xray : Option Bool
  cacheDataEncrypted : Option Bool
deriving DecidableEq, Repr

structure AutoScalingGroupConfig where
  loadBalancerHealthCheck : Option Bool
deriving DecidableEq, Repr

structure DynamoDBConfig where
  autoScaling : Option Bool
  pointInTimeRecovery : Option Bool
deriving DecidableEq, Repr

structure IAMConfig where
  fullAdmin : Option Bool
  wildcardServiceActions : Option Bool
deriving DecidableEq, Repr

structure LambdaConfig where
  supportedRuntimes : Option Bool
deriving DecidableEq, Repr

structure RDSConfig where
  publicAccess : Option Bool
  storageEncrypted : Option Bool
  multiAz : Option Bool
  enhancedMonitoring : Option Bool
  deletionProtection : Option Bool
  logExports : Option Bool
  iamAuth : Option Bool
  autoMinorVersionUpgrades : Option Bool
  copyTagsToSnapshot : Option Bool
deriving DecidableEq, Repr

structure S3Config where
  serverSideEncryption : Option Bool
  ssl : Option Bool
deriving DecidableEq, Repr

/-- `cfg?.leaf ?? true`: a missing category object or missing leaf key resolves
to `true`. -/
def gateDefaultTrue {γ : Type} (cfg : Option γ) (leaf : γ → Option Bool) : Bool :=
  (cfg.bind leaf).getD true

/-- `if (cfg?.leaf)`: plain truthiness, with no `?? true` fallback — a missing
category object or missing leaf key resolves to `undefined`, which is falsy.
(This is the shape of the two S3 gates in the source.) -/
def gateTruthy {γ : Type} (cfg : Option γ) (leaf : γ → Option Bool) : Bool :=
  (cfg.bind leaf).getD false

/-! ## Node structures -/

structure MethodSetting where
  loggingLevel : Option String
  cachingEnabled : Option (Resolvable Bool)
  cacheDataEncrypted : Option (Resolvable Bool)
deriving DecidableEq, Repr

structure CfnStage where
  methodSettings : Option (Resolvable (List (Resolvable MethodSetting)))
  clientCertificateId : Option String
  tracingEnabled : Option (Resolvable Bool)
deriving DecidableEq, Repr

structure CfnAutoScalingGroup where
  loadBalancerNames : Option (List String)
  healthCheckType : Option String
  healthCheckGracePeriod : Option Int
deriving DecidableEq, Repr

/-- `hasOwnProperty` flags for the two scalable attributes of the private `tableScaling` object of a higher-level `Table` construct. -/
structure TableScaling where
  scalableReadAttribute : Bool
  scalableWriteAttribute : Bool
deriving DecidableEq, Repr

/-- The parent scope of a `CfnTable` node: either a higher-level `Table`
construct (which may or may not carry a `tableScaling` object) or anything
else. -/
inductive TableScope where
  | table (tableScaling : Option TableScaling)
  | notTable
deriving DecidableEq, Repr

structure PointInTimeRecoverySpec where
  pointInTimeRecoveryEnabled : Option (Resolvable Bool)
deriving DecidableEq, Repr

structure CfnTable where
  scope : TableScope
  pointInTimeRecoverySpecification : Option (Resolvable PointInTimeRecoverySpec)
deriving DecidableEq, Repr

inductive Effect where
  | allow
  | deny
deriving DecidableEq, Repr

/-- One statement of an IAM policy document.  `action` and `resource` are the
string arrays the checker indexes into; a malformed statement may lack them
(`none` = the property is `undefined`). -/
structure PolicyStatement where
  effect : Effect
  action : Option (List String)
  resource : Option (List String)
deriving DecidableEq, Repr

structure PolicyDocument where
  statements : Option (List PolicyStatement)
deriving DecidableEq, Repr

structure CfnPolicy where
  policyDocument : PolicyDocument
deriving DecidableEq, Repr

structure CfnFunction where
  runtime : String
deriving DecidableEq, Repr

structure CfnDBInstance where
  publiclyAccessible : Option (Resolvable Bool)
  storageEncrypted : Option (Resolvable Bool)
  multiAz : Option (Resolvable Bool)
  monitoringInterval : Option Int
  dbClusterIdentifier : Option String
  deletionProtection : Option (Resolvable Bool)
  enableCloudwatchLogsExports : Option (List String)
  engine : Option String
  enableIamDatabaseAuthentication : Option (Resolvable Bool)
  autoMinorVersionUpgrade : Option (Resolvable Bool)
  copyTagsToSnapshot : Option (Resolvable Bool)
deriving DecidableEq, Repr

structure CfnDBCluster where
  deletionProtection : Option (Resolvable Bool)
  enableCloudwatchLogsExports : Option (List String)
  engine : Option String
  enableIamDatabaseAuthentication : Option (Resolvable Bool)
  copyTagsToSnapshot : Option (Resolvable Bool)
deriving DecidableEq, Repr

/-- The `CfnDBInstance | CfnDBCluster` union used by the RDS rule group. -/
inductive RDSNode where
  | inst (i : CfnDBInstance)
  | clus (c : CfnDBCluster)
deriving DecidableEq, Repr

structure ServerSideEncryptionByDefault where
  sseAlgorithm : String
deriving DecidableEq, Repr

structure ServerSideEncryptionRule where
  bucketKeyEnabled : Option (Resolvable Bool)
  serverSideEncryptionByDefault : Option (Resolvable ServerSideEncryptionByDefault)
deriving DecidableEq, Repr

structure BucketEncryption where
  serverSideEncryptionConfiguration :
    Option (Resolvable (List (Resolvable ServerSideEncryptionRule)))
deriving DecidableEq, Repr

structure CfnBucket where
  bucketEncryption : Option (Resolvable BucketEncryption)
deriving DecidableEq, Repr

structure S3PolicyDocument where
  statement : Option (List Unit)
deriving DecidableEq, Repr

structure CfnBucketPolicy where
  policyDocument : Option S3PolicyDocument
deriving DecidableEq, Repr

/-- The `CfnBucket | CfnBucketPolicy` union used by the S3 rule group. -/
inductive S3Node where
  | bucket (b : CfnBucket)
  | bucketPolicy (p : CfnBucketPolicy)
deriving DecidableEq, Repr

/-! ## Diagnostic messages (verbatim from the source) -/

def apiGateway1Msg : String :=
  "[APIGateway.1] API Gateway REST and WebSocket API logging should be enabled"

def apiGateway2Msg : String :=
  "[APIGateway.2] API Gateway REST API stages should be configured to use SSL certificates for backend authentication"

def apiGateway3Msg : String :=
  "[APIGateway.3] API Gateway REST API stages should have AWS X-Ray tracing enabled"

def apiGateway5Msg : String :=
  "[APIGateway.5] API Gateway REST API cache data should be encrypted at rest"

def autoScaling1Msg : String :=
  "[AutoScaling.1] Auto Scaling groups associated with a load balancer should use load balancer health checks"

def dynamoDB1Msg : String :=
  "[DynamoDB.1] DynamoDB tables should automatically scale capacity with demand"

def dynamoDB2Msg : String :=
  "[DynamoDB.2] DynamoDB tables should have point-in-time recovery enabled"

def iam1Msg : String :=
  "[IAM.1] IAM policies should not allow full \"*\" administrative privileges."

def iam21Msg : String :=
  "[IAM.21] IAM customer managed policies that you create should not allow wildcard actions for services."

def lambda2Msg : String :=
  "[Lambda.2] Lambda functions should use supported runtimes"

def rds2Msg : String :=
  "[RDS.2] RDS DB instances should prohibit public access, determined by the PubliclyAccessible configuration"

def rds3Msg : String :=
  "[RDS.3] RDS DB instances should have encryption at rest enabled"

def rds5Msg : String :=
  "[RDS.5] RDS DB instances should be configured with multiple Availability Zones"

def rds6Msg : String :=
  "[RDS.6] Enhanced monitoring should be configured for RDS DB instances and clusters"

def rds8InstanceMsg : String :=
  "[RDS.8] RDS DB instances should have deletion protection enabled"

def rds8ClusterMsg : String :=
  "[RDS.8] RDS DB cluster should have deletion protection enabled"

def rds9Msg : String :=
  "[RDS.9] Database logging should be enabled"

def rds10Msg : String :=
  "[RDS.10] IAM authentication should be configured for RDS instances"

def rds12Msg : String :=
  "[RDS.12] IAM authentication should be configured for RDS clusters"

def rds13Msg : String :=
  "[RDS.13] RDS automatic minor version upgrades should be enabled"

def rds16Msg : String :=
  "[RDS.16] RDS DB clusters should be configured to copy tags to snapshots"

def rds17Msg : String :=
  "[RDS.17] RDS DB instances should be configured to copy tags to snapshots"

def s3_4Msg : String :=
  "[S3.4] S3 buckets should have server-side encryption enabled"

def s3_4Msg2 : String :=
  "[S3.4] S3 buckets should have server-side encryption enabled.2"

def s3_4Msg3 : String :=
  "[S3.4] S3 buckets should have server-side encryption enabled.3"

def s3_4Msg4 : String :=
  "[S3.4] S3 buckets should have server-side encryption enabled.4"

def s3_5Msg : String :=
  "[S3.5] S3 buckets should require requests to use Secure Socket Layer"

end AwsFsbp

namespace AwsFsbp

/-! ## API Gateway rule group (`ApiGatewayComplianceChecker`) -/

namespace ApiGatewayComplianceChecker

/-- `[APIGateway.1]` logging check.  `!node.methodSettings` is true only for
`undefined` (an array — even an empty one — and an `IResolvable` token are
truthy objects). -/
def checkAPILogging (node : CfnStage) : List Diagnostic :=
  match node.methodSettings with
  | none => [⟨Severity.error, apiGateway1Msg⟩]
  | some .unresolved => []
  | some (.concrete ms) =>
      if ms.any (fun m =>
          match m with
          | .unresolved => false
          | .concrete mc =>
              mc.loggingLevel == none || mc.loggingLevel == some "OFF")
      then [⟨Severity.error, apiGateway1Msg⟩]
      else []

/-- `[APIGateway.2]` SSL client-certificate check. -/
def checkSSL (node : CfnStage) : List Diagnostic :=
  if !(truthyStr node.clientCertificateId) then [⟨Severity.error, apiGateway2Msg⟩]
  else []

/-- `[APIGateway.3]` X-Ray tracing check:
`!isResolvableObject(tracingEnabled) && !tracingEnabled`. -/
def checkXRay (node : CfnStage) : List Diagnostic :=
  match node.tracingEnabled with
  | none => [⟨Severity.error, apiGateway3Msg⟩]
  | some .unresolved => []
  | some (.concrete b) => if b then [] else [⟨Severity.error, apiGateway3Msg⟩]

/-- `[APIGateway.5]` cache-encryption check. -/
def checkCacheEncrypted (node : CfnStage) : List Diagnostic :=
  match node.methodSettings with
  | none => [⟨Severity.error, apiGateway5Msg⟩]
  | some .unresolved => []
  | some (.concrete ms) =>
      if ms.any (fun m =>
          match m with
          | .unresolved => false
          | .concrete mc =>
              truthy mc.cachingEnabled && !(truthy mc.cacheDataEncrypted))
      then [⟨Severity.error, apiGateway5Msg⟩]
      else []

def checkCompliance (cfg : Option ApiGatewayConfig) (node : CfnStage) :
    List Diagnostic :=
  (if gateDefaultTrue cfg (·.logging) then checkAPILogging node else []) ++
  (if gateDefaultTrue cfg (·.ssl) then checkSSL node else []) ++
  (if gateDefaultTrue cfg (·.xray) then checkXRay node else []) ++
  (if gateDefaultTrue cfg (·.cacheDataEncrypted) then checkCacheEncrypted node else [])

end ApiGatewayComplianceChecker

/-! ## Auto Scaling Group rule group (`AutoScalingGroupComplianceChecker`) -/

namespace AutoScalingGroupComplianceChecker

/-- `[AutoScaling.1]`: `if (node.loadBalancerNames?.length ?? 0 > 0)` parses as
`(node.loadBalancerNames?.length) ?? (0 > 0)`, i.e. the length when the array
exists (`0` being falsy) and `false` otherwise. -/
def checkLoadBalancerHealthCheck (node : CfnAutoScalingGroup) : List Diagnostic :=
  if (match node.loadBalancerNames with
      | none => false
      | some l => !(l.length = 0)) then
    if !(truthyStr node.healthCheckType) || !(truthyNum node.healthCheckGracePeriod)
    then [⟨Severity.error, autoScaling1Msg⟩]
    else []
  else []

def checkCompliance (cfg : Option AutoScalingGroupConfig)
    (node : CfnAutoScalingGroup) : List Diagnostic :=
  if gateDefaultTrue cfg (·.loadBalancerHealthCheck)
  then checkLoadBalancerHealthCheck node
  else []

end AutoScalingGroupComplianceChecker

/-! ## DynamoDB rule group (`DynamoDBComplianceChecker`) -/

namespace DynamoDBComplianceChecker

/-- `[DynamoDB.1]` auto-scaling check: evaluates only when the parent
scope is a higher-level `Table` construct. -/
def checkAutoScaling (node : CfnTable) : List Diagnostic :=
  match node.scope with
  | .notTable => []
  | .table none => [⟨Severity.error, dynamoDB1Msg⟩]
  | .table (some ts) =>
      if !ts.scalableReadAttribute || !ts.scalableWriteAttribute
      then [⟨Severity.error, dynamoDB1Msg⟩]
      else []

/-- `[DynamoDB.2]` point-in-time-recovery check. -/
def checkPointInTimeRecovery (node : CfnTable) : List Diagnostic :=
  match node.pointInTimeRecoverySpecification with
  | none => [⟨Severity.error, dynamoDB2Msg⟩]
  | some .unresolved => []
  | some (.concrete spec) =>
      if truthy spec.pointInTimeRecoveryEnabled then []
      else [⟨Severity.error, dynamoDB2Msg⟩]

def checkCompliance (cfg : Option DynamoDBConfig) (node : CfnTable) :
    List Diagnostic :=
  (if gateDefaultTrue cfg (·.autoScaling) then checkAutoScaling node else []) ++
  (if gateDefaultTrue cfg (·.pointInTimeRecovery) then checkPointInTimeRecovery node else [])

end DynamoDBComplianceChecker

/-! ## IAM rule group (`IAMPolicyComplianceChecker`)

`Array.prototype.some` evaluates its callback left to right and propagates any
exception; the callbacks below throw (`.error ()`) when they read `.some` off
an `undefined` `action`/`resource` array. -/

/-- `statements.some(f)` where the callback `f` may throw: elements are
visited left to right, a thrown exception propagates, a `true` result
short-circuits. -/
def jsSome {α : Type} (f : α → Except Unit Bool) : List α → Except Unit Bool
  | [] => .ok false
  | x :: xs =>
      match f x with
      | .error e => .error e
      | .ok true => .ok true
      | .ok false => jsSome f xs

namespace IAMPolicyComplianceChecker

/-- Callback of the `[IAM.1]` check:
`s.effect === ALLOW && s.action.some(a => a === "*") && s.resource.some(r => r === "*")`. -/
def fullAdminStatementCheck (s : PolicyStatement) : Except Unit Bool :=
  if s.effect = .allow then
    match s.action with
    | none => .error ()
    | some acts =>
        if acts.any (· == "*") then
          match s.resource with
          | none => .error ()
          | some rs => .ok (rs.any (· == "*"))
        else .ok false
  else .ok false

def checkIAMPolicyFullAdmin (node : CfnPolicy) : Except Unit (List Diagnostic) :=
  match node.policyDocument.statements with
  | none => .ok []
  | some stmts =>
      match jsSome fullAdminStatementCheck stmts with
      | .error e => .error e
      | .ok b => .ok (if b then [⟨Severity.error, iam1Msg⟩] else [])

/-- Callback of the `[IAM.21]` check:
`s.effect === ALLOW && s.action.some(a => a.endsWith(":*"))`. -/
def serviceWildcardStatementCheck (s : PolicyStatement) : Except Unit Bool :=
  if s.effect = .allow then
    match s.action with
    | none => .error ()
    | some acts => .ok (acts.any (fun a => jsEndsWith a ":*"))
  else .ok false

def checkIAMPolicyServiceWildcards (node : CfnPolicy) :
    Except Unit (List Diagnostic) :=
  match node.policyDocument.statements with
  | none => .ok []
  | some stmts =>
      match jsSome serviceWildcardStatementCheck stmts with
      | .error e => .error e
      | .ok b => .ok (if b then [⟨Severity.error, iam21Msg⟩] else [])

/-- The two gated IAM checks in order; an exception thrown by the first aborts
the second. -/
def checkCompliance (cfg : Option IAMConfig) (node : CfnPolicy) :
    Except Unit (List Diagnostic) :=
  match (if gateDefaultTrue cfg (·.fullAdmin)
         then checkIAMPolicyFullAdmin node else .ok []) with
  | .error e => .error e
  | .ok d1 =>
      match (if gateDefaultTrue cfg (·.wildcardServiceActions)
             then checkIAMPolicyServiceWildcards node else .ok []) with
      | .error e => .error e
      | .ok d2 => .ok (d1 ++ d2)

end IAMPolicyComplianceChecker

/-! ## Lambda rule group (`LambdaComplianceChecker`) -/

/-- Names of the hardcoded allow-list of modern runtimes. -/
def supportedLambdaRuntimes : List String :=
  ["nodejs14.x", "nodejs12.x", "nodejs10.x",
   "python3.8", "python3.7", "python3.6",
   "ruby2.7", "ruby2.5",
   "java11", "java8", "java8.al2",
   "go1.x",
   "dotnetcore3.1", "dotnetcore2.1"]

namespace LambdaComplianceChecker

/-- `[Lambda.2]` supported-runtime check. -/
def checkLambdaSupportedRuntime (node : CfnFunction) : List Diagnostic :=
  if !(supportedLambdaRuntimes.any (· == node.runtime))
  then [⟨Severity.error, lambda2Msg⟩]
  else []

def checkCompliance (cfg : Option LambdaConfig) (node : CfnFunction) :
    List Diagnostic :=
  if gateDefaultTrue cfg (·.supportedRuntimes)
  then checkLambdaSupportedRuntime node
  else []

end LambdaComplianceChecker

end AwsFsbp

namespace AwsFsbp

/-! ## RDS rule group (`RDSComplianceChecker`) -/

/-- `getDescriptor`: `"instances"` for a DB instance, `"cluster"` for a DB
cluster. -/
def getDescriptor : RDSNode → String
  | .inst _ => "instances"
  | .clus _ => "cluster"

/-- The engine-specific CloudWatch log-export whitelist (`switch (node.engine)`
in `checkLogExports`); an unrecognized or undefined engine falls through to the
`default` branch, the literal list `["invalid"]`. -/
def expectedLogTypes : Option String → List String
  | none => ["invalid"]
  | some e =>
      if e = "mysql" ∨ e = "aurora" ∨ e = "aurora-mysql" ∨ e = "mariadb" then
        ["audit", "error", "general", "slowquery"]
      else if e = "oracle-ee" ∨ e = "oracle-se2" then
        ["alert", "audit", "trace", "listener"]
      else if e = "postgres" ∨ e = "aurora-postgres" then
        ["postgresql", "upgrade"]
      else if e = "sqlserver-ee" ∨ e = "sqlserver-ex" ∨ e = "sqlserver-se" ∨
              e = "sqlserver-web" then
        ["error", "agent"]
      else
        ["invalid"]

/-- The four recognized engine families, flattened. -/
def recognizedEngines : List String :=
  ["mysql", "aurora", "aurora-mysql", "mariadb",
   "oracle-ee", "oracle-se2",
   "postgres", "aurora-postgres",
   "sqlserver-ee", "sqlserver-ex", "sqlserver-se", "sqlserver-web"]

namespace RDSComplianceChecker

/-- `[RDS.2]` public-access check: only DB instances; `node.publiclyAccessible`
is used bare (no `isResolvableObject` guard), so JavaScript truthiness applies:
`undefined`/`false` do not raise, `true` and an `IResolvable` token (an object,
hence truthy) do. -/
def checkRDSPublicAccess (node : RDSNode) : List Diagnostic :=
  match node with
  | .inst i => if truthy i.publiclyAccessible then [⟨Severity.error, rds2Msg⟩] else []
  | .clus _ => []

/-- `[RDS.3]` encryption-at-rest check: instances that are not cluster
members. -/
def checkRDSEncryption (node : RDSNode) : List Diagnostic :=
  match node with
  | .inst i =>
      if i.dbClusterIdentifier = none ∧ !(truthy i.storageEncrypted)
      then [⟨Severity.error, rds3Msg⟩]
      else []
  | .clus _ => []

/-- `[RDS.5]` multi-AZ check: instances that are not cluster members. -/
def checkMultipleAZs (node : RDSNode) : List Diagnostic :=
  match node with
  | .inst i =>
      if i.dbClusterIdentifier = none ∧ !(truthy i.multiAz)
      then [⟨Severity.error, rds5Msg⟩]
      else []
  | .clus _ => []

/-- `[RDS.6]` enhanced-monitoring check: every instance, cluster member or
not. -/
def checkEnhancedMonitoring (node : RDSNode) : List Diagnostic :=
  match node with
  | .inst i =>
      if !(truthyNum i.monitoringInterval) ∨
         (∃ n, i.monitoringInterval = some n ∧ n < 1)
      then [⟨Severity.error, rds6Msg⟩]
      else []
  | .clus _ => []

/-- `[RDS.8]` deletion-protection check: clusters, and instances not in a
cluster. -/
def checkDeletionProtection (node : RDSNode) : List Diagnostic :=
  match node with
  | .clus c =>
      if !(truthy c.deletionProtection)
      then [⟨Severity.error, rds8ClusterMsg⟩]
      else []
  | .inst i =>
      if i.dbClusterIdentifier = none ∧ !(truthy i.deletionProtection)
      then [⟨Severity.error, rds8InstanceMsg⟩]
      else []

/-- Shared body of `[RDS.9]`: no export list or an empty one raises; otherwise
every exported log type must belong to the engine-specific whitelist. -/
def logExportsBody (exports : Option (List String)) (engine : Option String) :
    List Diagnostic :=
  match exports with
  | none => [⟨Severity.error, rds9Msg⟩]
  | some l =>
      if l.length = 0 then [⟨Severity.error, rds9Msg⟩]
      else if l.all (fun log => (expectedLogTypes engine).contains log) then []
      else [⟨Severity.error, rds9Msg⟩]

/-- `[RDS.9]` log-exports check: clusters, and instances not in a cluster. -/
def checkLogExports (node : RDSNode) : List Diagnostic :=
  match node with
  | .clus c => logExportsBody c.enableCloudwatchLogsExports c.engine
  | .inst i =>
      if i.dbClusterIdentifier = none
      then logExportsBody i.enableCloudwatchLogsExports i.engine
      else []

/-- `[RDS.10]` (instances not in a cluster) and `[RDS.12]` (clusters) IAM
authentication checks. -/
def checkIAMAuthentication (node : RDSNode) : List Diagnostic :=
  match node with
  | .inst i =>
      if i.dbClusterIdentifier = none ∧
         !(truthy i.enableIamDatabaseAuthentication)
      then [⟨Severity.error, rds10Msg⟩]
      else []
  | .clus c =>
      if !(truthy c.enableIamDatabaseAuthentication)
      then [⟨Severity.error, rds12Msg⟩]
      else []

/-- `[RDS.13]` automatic minor-version upgrade check: every instance. -/
def checkMinorVersionUpgrades (node : RDSNode) : List Diagnostic :=
  match node with
  | .inst i =>
      if !(truthy i.autoMinorVersionUpgrade)
      then [⟨Severity.error, rds13Msg⟩]
      else []
  | .clus _ => []

/-- `[RDS.16]` / `[RDS.17]` copy-tags-to-snapshot checks: the only rule that
emits `addWarning` rather than `addError`. -/
def checkCopyTagsToSnapshot (node : RDSNode) : List Diagnostic :=
  match node with
  | .clus c =>
      if !(truthy c.copyTagsToSnapshot)
      then [⟨Severity.warning, rds16Msg⟩]
      else []
  | .inst i =>
      if !(truthy i.copyTagsToSnapshot) ∧ i.dbClusterIdentifier = none
      then [⟨Severity.warning, rds17Msg⟩]
      else []

def checkCompliance (cfg : Option RDSConfig) (node : RDSNode) : List Diagnostic :=
  (if gateDefaultTrue cfg (·.publicAccess) then checkRDSPublicAccess node else []) ++
  (if gateDefaultTrue cfg (·.storageEncrypted) then checkRDSEncryption node else []) ++
  (if gateDefaultTrue cfg (·.multiAz) then checkMultipleAZs node else []) ++
  (if gateDefaultTrue cfg (·.enhancedMonitoring) then checkEnhancedMonitoring node else []) ++
  (if gateDefaultTrue cfg (·.deletionProtection) then checkDeletionProtection node else []) ++
  (if gateDefaultTrue cfg (·.logExports) then checkLogExports node else []) ++
  (if gateDefaultTrue cfg (·.iamAuth) then checkIAMAuthentication node else []) ++
  (if gateDefaultTrue cfg (·.autoMinorVersionUpgrades) then checkMinorVersionUpgrades node else []) ++
  (if gateDefaultTrue cfg (·.copyTagsToSnapshot) then checkCopyTagsToSnapshot node else [])

end RDSComplianceChecker

/-! ## S3 rule group (`S3ComplianceChecker`)

Note the gates: `if (this.config.s3?.serverSideEncryption) { ... } else if
(this.config.s3?.ssl) { ... }` — plain truthiness with NO `?? true` fallback,
and the second check is an `else if` of the first. -/

namespace S3ComplianceChecker

/-- `[S3.4]` server-side-encryption check (buckets only). -/
def checkServerSideEncryption (node : S3Node) : List Diagnostic :=
  match node with
  | .bucketPolicy _ => []
  | .bucket b =>
      match b.bucketEncryption with
      | none => [⟨Severity.error, s3_4Msg⟩]
      | some .unresolved => [⟨Severity.error, s3_4Msg⟩]
      | some (.concrete be) =>
          match be.serverSideEncryptionConfiguration with
          | none => [⟨Severity.error, s3_4Msg2⟩]
          | some .unresolved => [⟨Severity.error, s3_4Msg2⟩]
          | some (.concrete []) => [⟨Severity.error, s3_4Msg2⟩]
          | some (.concrete (.unresolved :: _)) => [⟨Severity.error, s3_4Msg2⟩]
          | some (.concrete (.concrete ssec :: _)) =>
              if ssec.bucketKeyEnabled = some .unresolved ∨
                 ssec.bucketKeyEnabled = some (.concrete false) then
                [⟨Severity.error, s3_4Msg3⟩]
              else
                match ssec.serverSideEncryptionByDefault with
                | none => [⟨Severity.error, s3_4Msg4⟩]
                | some .unresolved => [⟨Severity.error, s3_4Msg4⟩]
                | some (.concrete d) =>
                    if d.sseAlgorithm = "AES-256" ∨ d.sseAlgorithm = "aws:kms"
                    then []
                    else [⟨Severity.error, s3_4Msg4⟩]

/-- `[S3.5]` SSL check (bucket policies only):
`if (node.policyDocument?.Statement?.length === 0)`. -/
def checkSSL (node : S3Node) : List Diagnostic :=
  match node with
  | .bucket _ => []
  | .bucketPolicy p =>
      match p.policyDocument with
      | none => []
      | some d =>
          match d.statement with
          | none => []
          | some l => if l.length = 0 then [⟨Severity.error, s3_5Msg⟩] else []

def checkCompliance (cfg : Option S3Config) (node : S3Node) : List Diagnostic :=
  if gateTruthy cfg (·.serverSideEncryption) then checkServerSideEncryption node
  else if gateTruthy cfg (·.ssl) then checkSSL node
  else []

end S3ComplianceChecker

end AwsFsbp

namespace AwsFsbp

/-! ## The monolithic `AWSFoundationalSecurityBestPracticesChecker`

The single-class variant of the checker
(`src/src/aws-foundational-security-best-practices.ts`): its `visit` method
dispatches on the runtime type of the node and runs the matching rule group.  Its
API Gateway branch only carries the logging and SSL rules.  Because the IAM
rules can throw, `visit` returns `Except Unit (List Diagnostic)`. -/

namespace AWSFoundationalSecurityBestPracticesChecker

/-- The `apigateway` category of the `FSBPConfig` of this variant (only `logging`
and `ssl`). -/
structure ApiGatewayConfigV1 where
  logging : Option Bool
  ssl : Option Bool
deriving DecidableEq, Repr

structure FSBPConfig where
  apigateway : Option ApiGatewayConfigV1
  iam : Option IAMConfig
  lambda : Option LambdaConfig
  rds : Option RDSConfig
  dynamodb : Option DynamoDBConfig
deriving DecidableEq, Repr

/-- The default configuration object of the constructor: every category
present, every leaf `true`. -/
def defaultFSBPConfig : FSBPConfig :=
  ⟨some ⟨some true, some true⟩,
   some ⟨some true, some true⟩,
   some ⟨some true⟩,
   some ⟨some true, some true, some true, some true, some true, some true,
         some true, some true, some true⟩,
   some ⟨some true, some true⟩⟩

/-- The visited node: each recognized runtime variant, plus `unrecognized` for
every other construct, which the dispatcher ignores. -/
inductive Node where
  | restApi
  | stage (s : CfnStage)
  | policy (p : CfnPolicy)
  | lambdaFunction (f : CfnFunction)
  | dbInstance (i : CfnDBInstance)
  | dbCluster (c : CfnDBCluster)
  | dynamoTable (t : CfnTable)
  | unrecognized
deriving DecidableEq, Repr

/-- `[RDS.1]` RDS snapshots should be private — the body is only a
`TODO: This is complicated...` comment, so the check never raises. -/
def checkSnapshotPublicAccess (_node : RDSNode) : List Diagnostic := []

/-- `[Lambda.1]` Lambda function policies should prohibit public access — the
body is only a `TODO: This is complicated...` comment, so the check never
raises. -/
def checkLambdaPublicAccess (_node : CfnFunction) : List Diagnostic := []

/-- The API Gateway branch: both checks test `instanceof CfnStage` internally,
so a `CfnRestApi` (modelled as `none`) produces nothing. -/
def checkRestApiCompliance (cfg : FSBPConfig) (stg : Option CfnStage) :
    List Diagnostic :=
  match stg with
  | none => []
  | some s =>
      (if gateDefaultTrue cfg.apigateway (·.logging)
       then ApiGatewayComplianceChecker.checkAPILogging s else []) ++
      (if gateDefaultTrue cfg.apigateway (·.ssl)
       then ApiGatewayComplianceChecker.checkSSL s else [])

/-- The RDS branch: the (stub) snapshot check runs unconditionally, then the
nine configuration-gated checks. -/
def checkRDSCompliance (cfg : FSBPConfig) (node : RDSNode) : List Diagnostic :=
  checkSnapshotPublicAccess node ++
  (if gateDefaultTrue cfg.rds (·.publicAccess)
   then RDSComplianceChecker.checkRDSPublicAccess node else []) ++
  (if gateDefaultTrue cfg.rds (·.storageEncrypted)
   then RDSComplianceChecker.checkRDSEncryption node else []) ++
  (if gateDefaultTrue cfg.rds (·.multiAz)
   then RDSComplianceChecker.checkMultipleAZs node else []) ++
  (if gateDefaultTrue cfg.rds (·.enhancedMonitoring)
   then RDSComplianceChecker.checkEnhancedMonitoring node else []) ++
  (if gateDefaultTrue cfg.rds (·.deletionProtection)
   then RDSComplianceChecker.checkDeletionProtection node else []) ++
  (if gateDefaultTrue cfg.rds (·.logExports)
   then RDSComplianceChecker.checkLogExports node else []) ++
  (if gateDefaultTrue cfg.rds (·.iamAuth)
   then RDSComplianceChecker.checkIAMAuthentication node else []) ++
  (if gateDefaultTrue cfg.rds (·.autoMinorVersionUpgrades)
   then RDSComplianceChecker.checkMinorVersionUpgrades node else []) ++
  (if gateDefaultTrue cfg.rds (·.copyTagsToSnapshot)
   then RDSComplianceChecker.checkCopyTagsToSnapshot node else [])

/-- The Lambda branch: the (stub) public-access check runs unconditionally,
then the gated supported-runtime check. -/
def checkLambdaCompliance (cfg : FSBPConfig) (node : CfnFunction) :
    List Diagnostic :=
  checkLambdaPublicAccess node ++
  (if gateDefaultTrue cfg.lambda (·.supportedRuntimes)
   then LambdaComplianceChecker.checkLambdaSupportedRuntime node else [])

/-- The IAM branch (identical to the class-based checker, reading
`this.Config.iam`). -/
def checkIAMPolicyCompliance (cfg : FSBPConfig) (node : CfnPolicy) :
    Except Unit (List Diagnostic) :=
  IAMPolicyComplianceChecker.checkCompliance cfg.iam node

/-- The DynamoDB branch. -/
def checkDynamoDBCompliance (cfg : FSBPConfig) (node : CfnTable) :
    List Diagnostic :=
  DynamoDBComplianceChecker.checkCompliance cfg.dynamodb node

/-- `visit(node)`: dispatch on the runtime variant of the node; unrecognized
variants are ignored. -/
def visit (cfg : FSBPConfig) (n : Node) : Except Unit (List Diagnostic) :=
  match n with
  | .restApi => .ok (checkRestApiCompliance cfg none)
  | .stage s => .ok (checkRestApiCompliance cfg (some s))
  | .policy p => checkIAMPolicyCompliance cfg p
  | .lambdaFunction f => .ok (checkLambdaCompliance cfg f)
  | .dbInstance i => .ok (checkRDSCompliance cfg (.inst i))
  | .dbCluster c => .ok (checkRDSCompliance cfg (.clus c))
  | .dynamoTable t => .ok (checkDynamoDBCompliance cfg t)
  | .unrecognized => .ok []

end AWSFoundationalSecurityBestPracticesChecker

end AwsFsbp

namespace AwsFsbp

/-! ## Auxiliary predicates and concrete inputs used by the theorems below -/

/-- A policy is well formed when every statement of its document carries both
the `action` and the `resource` string arrays. -/
def WellFormedPolicy (p : CfnPolicy) : Prop :=
  ∀ stmts, p.policyDocument.statements = some stmts →
    ∀ s ∈ stmts, s.action.isSome = true ∧ s.resource.isSome = true

/-- Every diagnostic in the list is an error and is not one of the two
copy-tags warnings. -/
def NotCopyTagsDiag (l : List Diagnostic) : Prop :=
  ∀ d ∈ l, d.severity = Severity.error ∧
    d.message ≠ rds16Msg ∧ d.message ≠ rds17Msg

/-- An API Gateway configuration with every leaf explicitly `true`. -/
def allTrueApiGatewayConfig : ApiGatewayConfig :=
  ⟨some true, some true, some true, some true⟩

/-- An RDS configuration with every leaf explicitly `true` (the default the
constructor supplies). -/
def allTrueRDSConfig : RDSConfig :=
  ⟨some true, some true, some true, some true, some true, some true,
   some true, some true, some true⟩

/-- The concrete scenario instance of the specification: publicly accessible
but compliant with every other rule. -/
def scenarioInstance : CfnDBInstance :=
  ⟨some (.concrete true), some (.concrete true), some (.concrete true),
   some 60, none, some (.concrete true), some ["error"], some "sqlserver-ee",
   some (.concrete true), some (.concrete true), some (.concrete true)⟩

/-- A bucket with no `bucketEncryption` at all — maximally non-compliant with
the server-side-encryption rule. -/
def noEncryptionBucket : CfnBucket := ⟨none⟩

/-- A DB instance whose `publiclyAccessible` is a deploy-time token
(`IResolvable`), with every other property `undefined`. -/
def unresolvedPublicInstance : CfnDBInstance :=
  ⟨some .unresolved, none, none, none, none, none, none, none, none, none, none⟩

/-- A policy whose document has a statements list holding one Allow statement
with neither an `action` nor a `resource` array. -/
def malformedPolicy : CfnPolicy := ⟨⟨some [⟨.allow, none, none⟩]⟩⟩

/-- A well-formed policy: one Allow statement with both arrays present. -/
def wellFormedAdminPolicy : CfnPolicy :=
  ⟨⟨some [⟨.allow, some ["*"], some ["arn:aws:s3:::bucket/key"]⟩]⟩⟩

/-- A configuration for the monolithic checker with every rule leaf `false`. -/
def rdsAllOffFSBPConfig : AWSFoundationalSecurityBestPracticesChecker.FSBPConfig :=
  ⟨some ⟨some false, some false⟩,
   some ⟨some false, some false⟩,
   some ⟨some false⟩,
   some ⟨some false, some false, some false, some false, some false, some false,
         some false, some false, some false⟩,
   some ⟨some false, some false⟩⟩

/-- A DB cluster with the unrecognized engine `"mongodb"` and a declared
log-export list `["error"]`. -/
def mongoCluster : CfnDBCluster := ⟨none, some ["error"], some "mongodb", none, none⟩

/-- A resource list with no literal `"*"` member. -/
def sampleNonWildcardResources : List String := ["arn:aws:s3:::bucket/key"]

/-- A `CfnTable` whose parent scope is not a higher-level `Table` construct
and which has no point-in-time-recovery specification. -/
def standaloneTable : CfnTable := ⟨.notTable, none⟩

/-- A stage whose method-settings value is a present, concrete empty list. -/
def emptySettingsStage : CfnStage := ⟨some (.concrete []), none, none⟩

/-- A DB cluster with `copyTagsToSnapshot` explicitly `false`. -/
def copyTagsOffCluster : CfnDBCluster := ⟨none, none, none, none, some (.concrete false)⟩

end AwsFsbp

namespace AwsFsbp

/-! ## Helper lemmas -/

theorem jsSome_isOk {α : Type} (f : α → Except Unit Bool) (l : List α)
    (h : ∀ x ∈ l, ∃ b, f x = .ok b) : ∃ b, jsSome f l = .ok b := by
  induction l with
  | nil => exact ⟨false, rfl⟩
  | cons x xs ih =>
      obtain ⟨b, hb⟩ := h x (List.mem_cons_self x xs)
      obtain ⟨b2, hb2⟩ := ih (fun y hy => h y (List.mem_cons_of_mem _ hy))
      cases b with
      | false => exact ⟨b2, by simp [jsSome, hb, hb2]⟩
      | true => exact ⟨true, by simp [jsSome, hb]⟩

theorem jsSome_eq_ok_true {α : Type} (f : α → Except Unit Bool) (l : List α)
    (h : jsSome f l = .ok true) : ∃ x ∈ l, f x = .ok true := by
  induction l with
  | nil => simp [jsSome] at h
  | cons x xs ih =>
      cases hfx : f x with
      | error e => simp [jsSome, hfx] at h
      | ok b =>
          cases b with
          | true => exact ⟨x, List.mem_cons_self x xs, hfx⟩
          | false =>
              obtain ⟨y, hy, hfy⟩ := ih (by simpa [jsSome, hfx] using h)
              exact ⟨y, List.mem_cons_of_mem _ hy, hfy⟩

theorem fullAdminStatementCheck_isOk (s : PolicyStatement)
    (ha : s.action.isSome = true) (hr : s.resource.isSome = true) :
    ∃ b, IAMPolicyComplianceChecker.fullAdminStatementCheck s = .ok b := by
  rcases s with ⟨eff, act, res⟩
  cases act with
  | none => simp at ha
  | some acts =>
      cases res with
      | none => simp at hr
      | some rs =>
          cases eff with
          | deny => exact ⟨false, rfl⟩
          | allow =>
              cases hx : acts.any (· == "*") with
              | false =>
                  exact ⟨false, by
                    simp [IAMPolicyComplianceChecker.fullAdminStatementCheck, hx]⟩
              | true =>
                  exact ⟨rs.any (· == "*"), by
                    simp [IAMPolicyComplianceChecker.fullAdminStatementCheck, hx]⟩

theorem serviceWildcardStatementCheck_isOk (s : PolicyStatement)
    (ha : s.action.isSome = true) :
    ∃ b, IAMPolicyComplianceChecker.serviceWildcardStatementCheck s = .ok b := by
  rcases s with ⟨eff, act, res⟩
  cases act with
  | none => simp at ha
  | some acts =>
      cases eff with
      | deny => exact ⟨false, rfl⟩
      | allow =>
          exact ⟨acts.any (fun a => jsEndsWith a ":*"), by
            simp [IAMPolicyComplianceChecker.serviceWildcardStatementCheck]⟩

theorem checkIAMPolicyFullAdmin_isOk (p : CfnPolicy) (hp : WellFormedPolicy p) :
    ∃ ds, IAMPolicyComplianceChecker.checkIAMPolicyFullAdmin p = .ok ds := by
  cases hst : p.policyDocument.statements with
  | none =>
      exact ⟨[], by simp [IAMPolicyComplianceChecker.checkIAMPolicyFullAdmin, hst]⟩
  | some stmts =>
      have hw := hp stmts hst
      obtain ⟨b, hb⟩ := jsSome_isOk IAMPolicyComplianceChecker.fullAdminStatementCheck
        stmts (fun s hs => fullAdminStatementCheck_isOk s (hw s hs).1 (hw s hs).2)
      exact ⟨if b then [⟨Severity.error, iam1Msg⟩] else [], by
        simp [IAMPolicyComplianceChecker.checkIAMPolicyFullAdmin, hst, hb]⟩

theorem checkIAMPolicyServiceWildcards_isOk (p : CfnPolicy)
    (hp : WellFormedPolicy p) :
    ∃ ds, IAMPolicyComplianceChecker.checkIAMPolicyServiceWildcards p = .ok ds := by
  cases hst : p.policyDocument.statements with
  | none =>
      exact ⟨[], by simp [IAMPolicyComplianceChecker.checkIAMPolicyServiceWildcards, hst]⟩
  | some stmts =>
      have hw := hp stmts hst
      obtain ⟨b, hb⟩ := jsSome_isOk IAMPolicyComplianceChecker.serviceWildcardStatementCheck
        stmts (fun s hs => serviceWildcardStatementCheck_isOk s (hw s hs).1)
      exact ⟨if b then [⟨Severity.error, iam21Msg⟩] else [], by
        simp [IAMPolicyComplianceChecker.checkIAMPolicyServiceWildcards, hst, hb]⟩

theorem checkCompliance_iam_isOk (cfg : Option IAMConfig) (p : CfnPolicy)
    (hp : WellFormedPolicy p) :
    ∃ ds, IAMPolicyComplianceChecker.checkCompliance cfg p = .ok ds := by
  have h1 : ∃ ds, (if gateDefaultTrue cfg (·.fullAdmin)
      then IAMPolicyComplianceChecker.checkIAMPolicyFullAdmin p
      else .ok []) = .ok ds := by
    split
    · exact checkIAMPolicyFullAdmin_isOk p hp
    · exact ⟨[], rfl⟩
  have h2 : ∃ ds, (if gateDefaultTrue cfg (·.wildcardServiceActions)
      then IAMPolicyComplianceChecker.checkIAMPolicyServiceWildcards p
      else .ok []) = .ok ds := by
    split
    · exact checkIAMPolicyServiceWildcards_isOk p hp
    · exact ⟨[], rfl⟩
  obtain ⟨ds1, h1⟩ := h1
  obtain ⟨ds2, h2⟩ := h2
  exact ⟨ds1 ++ ds2, by simp [IAMPolicyComplianceChecker.checkCompliance, h1, h2]⟩

theorem checkIAMPolicyFullAdmin_raises_only_if
    (p : CfnPolicy) (stmts : List PolicyStatement)
    (hst : p.policyDocument.statements = some stmts)
    (hraise : IAMPolicyComplianceChecker.checkIAMPolicyFullAdmin p =
      .ok [⟨Severity.error, iam1Msg⟩]) :
    ∃ s ∈ stmts, s.effect = .allow ∧
      (∃ acts, s.action = some acts ∧ "*" ∈ acts) ∧
      (∃ rs, s.resource = some rs ∧ "*" ∈ rs) := by
  unfold IAMPolicyComplianceChecker.checkIAMPolicyFullAdmin at hraise
  rw [hst] at hraise
  have hraise2 : (match jsSome IAMPolicyComplianceChecker.fullAdminStatementCheck
      stmts with
    | Except.error e => (Except.error e : Except Unit (List Diagnostic))
    | Except.ok b =>
        Except.ok (if b = true then [⟨Severity.error, iam1Msg⟩] else [])) =
      Except.ok [⟨Severity.error, iam1Msg⟩] := hraise
  clear hraise
  cases hj : jsSome IAMPolicyComplianceChecker.fullAdminStatementCheck stmts with
  | error e => rw [hj] at hraise2; exact Except.noConfusion hraise2
  | ok b =>
      rw [hj] at hraise2
      cases b with
      | false => simp at hraise2
      | true =>
          obtain ⟨s, hs, hfs⟩ := jsSome_eq_ok_true _ _ hj
          refine ⟨s, hs, ?_⟩
          rcases s with ⟨eff, act, res⟩
          cases eff with
          | deny => simp [IAMPolicyComplianceChecker.fullAdminStatementCheck] at hfs
          | allow =>
              cases act with
              | none => simp [IAMPolicyComplianceChecker.fullAdminStatementCheck] at hfs
              | some acts =>
                  cases hx : acts.any (· == "*") with
                  | false =>
                      rw [show IAMPolicyComplianceChecker.fullAdminStatementCheck
                          ⟨.allow, some acts, res⟩ =
                          (if acts.any (· == "*") then
                            (match res with
                             | none => Except.error ()
                             | some rs => Except.ok (rs.any (· == "*")))
                           else Except.ok false) from rfl, hx] at hfs
                      simp at hfs
                  | true =>
                      cases res with
                      | none =>
                          rw [show IAMPolicyComplianceChecker.fullAdminStatementCheck
                              ⟨.allow, some acts, none⟩ =
                              (if acts.any (· == "*") then Except.error ()
                               else Except.ok false) from rfl, hx] at hfs
                          exact Except.noConfusion hfs
                      | some rs =>
                          rw [show IAMPolicyComplianceChecker.fullAdminStatementCheck
                              ⟨.allow, some acts, some rs⟩ =
                              (if acts.any (· == "*") then Except.ok (rs.any (· == "*"))
                               else Except.ok false) from rfl, hx] at hfs
                          simp only [if_true] at hfs
                          injection hfs with hb
                          refine ⟨rfl, ⟨acts, rfl, ?_⟩, ⟨rs, rfl, ?_⟩⟩
                          · obtain ⟨a, ha, hae⟩ := List.any_eq_true.1 hx
                            rw [beq_iff_eq] at hae
                            exact hae ▸ ha
                          · obtain ⟨r, hrr, hre⟩ := List.any_eq_true.1 hb
                            rw [beq_iff_eq] at hre
                            exact hre ▸ hrr

theorem checkIAMPolicyServiceWildcards_raises_only_if
    (p : CfnPolicy) (stmts : List PolicyStatement)
    (hst : p.policyDocument.statements = some stmts)
    (hraise : IAMPolicyComplianceChecker.checkIAMPolicyServiceWildcards p =
      .ok [⟨Severity.error, iam21Msg⟩]) :
    ∃ s ∈ stmts, s.effect = .allow ∧
      ∃ acts, s.action = some acts ∧ ∃ a ∈ acts, jsEndsWith a ":*" = true := by
  unfold IAMPolicyComplianceChecker.checkIAMPolicyServiceWildcards at hraise
  rw [hst] at hraise
  have hraise2 : (match jsSome IAMPolicyComplianceChecker.serviceWildcardStatementCheck
      stmts with
    | Except.error e => (Except.error e : Except Unit (List Diagnostic))
    | Except.ok b =>
        Except.ok (if b = true then [⟨Severity.error, iam21Msg⟩] else [])) =
      Except.ok [⟨Severity.error, iam21Msg⟩] := hraise
  clear hraise
  cases hj : jsSome IAMPolicyComplianceChecker.serviceWildcardStatementCheck stmts with
  | error e => rw [hj] at hraise2; exact Except.noConfusion hraise2
  | ok b =>
      rw [hj] at hraise2
      cases b with
      | false => simp at hraise2
      | true =>
          obtain ⟨s, hs, hfs⟩ := jsSome_eq_ok_true _ _ hj
          refine ⟨s, hs, ?_⟩
          rcases s with ⟨eff, act, res⟩
          cases eff with
          | deny => simp [IAMPolicyComplianceChecker.serviceWildcardStatementCheck] at hfs
          | allow =>
              cases act with
              | none => simp [IAMPolicyComplianceChecker.serviceWildcardStatementCheck] at hfs
              | some acts =>
                  have hfs2 : (Except.ok (acts.any (fun a => jsEndsWith a ":*")) :
                      Except Unit Bool) = Except.ok true := hfs
                  injection hfs2 with hb
                  exact ⟨rfl, acts, rfl, List.any_eq_true.1 hb⟩

end AwsFsbp

namespace AwsFsbp


theorem mem_of_mem_ite {c : Prop} [Decidable c] {l : List Diagnostic}
    {d : Diagnostic} (hd : d ∈ (if c then l else [])) : d ∈ l := by
  split at hd
  · exact hd
  · exact absurd hd (List.not_mem_nil d)

theorem notCopyTags_checkAPILogging (s : CfnStage) :
    NotCopyTagsDiag (ApiGatewayComplianceChecker.checkAPILogging s) := by
  intro d hd
  unfold ApiGatewayComplianceChecker.checkAPILogging at hd
  repeat' split at hd
  all_goals first
    | exact absurd hd (List.not_mem_nil d)
    | (simp only [List.mem_singleton] at hd; subst hd;
       exact ⟨rfl, by decide, by decide⟩)

theorem notCopyTags_checkSSL (s : CfnStage) :
    NotCopyTagsDiag (ApiGatewayComplianceChecker.checkSSL s) := by
  intro d hd
  unfold ApiGatewayComplianceChecker.checkSSL at hd
  repeat' split at hd
  all_goals first
    | exact absurd hd (List.not_mem_nil d)
    | (simp only [List.mem_singleton] at hd; subst hd;
       exact ⟨rfl, by decide, by decide⟩)

theorem notCopyTags_checkXRay (s : CfnStage) :
    NotCopyTagsDiag (ApiGatewayComplianceChecker.checkXRay s) := by
  intro d hd
  unfold ApiGatewayComplianceChecker.checkXRay at hd
  repeat' split at hd
  all_goals first
    | exact absurd hd (List.not_mem_nil d)
    | (simp only [List.mem_singleton] at hd; subst hd;
       exact ⟨rfl, by decide, by decide⟩)

theorem notCopyTags_checkCacheEncrypted (s : CfnStage) :
    NotCopyTagsDiag (ApiGatewayComplianceChecker.checkCacheEncrypted s) := by
  intro d hd
  unfold ApiGatewayComplianceChecker.checkCacheEncrypted at hd
  repeat' split at hd
  all_goals first
    | exact absurd hd (List.not_mem_nil d)
    | (simp only [List.mem_singleton] at hd; subst hd;
       exact ⟨rfl, by decide, by decide⟩)

theorem notCopyTags_checkLoadBalancerHealthCheck (g : CfnAutoScalingGroup) :
    NotCopyTagsDiag (AutoScalingGroupComplianceChecker.checkLoadBalancerHealthCheck g) := by
  intro d hd
  unfold AutoScalingGroupComplianceChecker.checkLoadBalancerHealthCheck at hd
  repeat' split at hd
  all_goals first
    | exact absurd hd (List.not_mem_nil d)
    | (simp only [List.mem_singleton] at hd; subst hd;
       exact ⟨rfl, by decide, by decide⟩)

theorem notCopyTags_checkAutoScaling (t : CfnTable) :
    NotCopyTagsDiag (DynamoDBComplianceChecker.checkAutoScaling t) := by
  intro d hd
  unfold DynamoDBComplianceChecker.checkAutoScaling at hd
  repeat' split at hd
  all_goals first
    | exact absurd hd (List.not_mem_nil d)
    | (simp only [List.mem_singleton] at hd; subst hd;
       exact ⟨rfl, by decide, by decide⟩)

theorem notCopyTags_checkPointInTimeRecovery (t : CfnTable) :
    NotCopyTagsDiag (DynamoDBComplianceChecker.checkPointInTimeRecovery t) := by
  intro d hd
  unfold DynamoDBComplianceChecker.checkPointInTimeRecovery at hd
  repeat' split at hd
  all_goals first
    | exact absurd hd (List.not_mem_nil d)
    | (simp only [List.mem_singleton] at hd; subst hd;
       exact ⟨rfl, by decide, by decide⟩)

theorem notCopyTags_checkLambdaSupportedRuntime (f : CfnFunction) :
    NotCopyTagsDiag (LambdaComplianceChecker.checkLambdaSupportedRuntime f) := by
  intro d hd
  unfold LambdaComplianceChecker.checkLambdaSupportedRuntime at hd
  repeat' split at hd
  all_goals first
    | exact absurd hd (List.not_mem_nil d)
    | (simp only [List.mem_singleton] at hd; subst hd;
       exact ⟨rfl, by decide, by decide⟩)

theorem notCopyTags_checkServerSideEncryption (n : S3Node) :
    NotCopyTagsDiag (S3ComplianceChecker.checkServerSideEncryption n) := by
  intro d hd
  unfold S3ComplianceChecker.checkServerSideEncryption at hd
  repeat' split at hd
  all_goals first
    | exact absurd hd (List.not_mem_nil d)
    | (simp only [List.mem_singleton] at hd; subst hd;
       exact ⟨rfl, by decide, by decide⟩)

theorem notCopyTags_checkSSL_s3 (n : S3Node) :
    NotCopyTagsDiag (S3ComplianceChecker.checkSSL n) := by
  intro d hd
  unfold S3ComplianceChecker.checkSSL at hd
  repeat' split at hd
  all_goals first
    | exact absurd hd (List.not_mem_nil d)
    | (simp only [List.mem_singleton] at hd; subst hd;
       exact ⟨rfl, by decide, by decide⟩)

theorem notCopyTags_checkRDSPublicAccess (n : RDSNode) :
    NotCopyTagsDiag (RDSComplianceChecker.checkRDSPublicAccess n) := by
  intro d hd
  unfold RDSComplianceChecker.checkRDSPublicAccess at hd
  repeat' split at hd
  all_goals first
    | exact absurd hd (List.not_mem_nil d)
    | (simp only [List.mem_singleton] at hd; subst hd;
       exact ⟨rfl, by decide, by decide⟩)

theorem notCopyTags_checkRDSEncryption (n : RDSNode) :
    NotCopyTagsDiag (RDSComplianceChecker.checkRDSEncryption n) := by
  intro d hd
  unfold RDSComplianceChecker.checkRDSEncryption at hd
  repeat' split at hd
  all_goals first
    | exact absurd hd (List.not_mem_nil d)
    | (simp only [List.mem_singleton] at hd; subst hd;
       exact ⟨rfl, by decide, by decide⟩)

theorem notCopyTags_checkMultipleAZs (n : RDSNode) :
    NotCopyTagsDiag (RDSComplianceChecker.checkMultipleAZs n) := by
  intro d hd
  unfold RDSComplianceChecker.checkMultipleAZs at hd
  repeat' split at hd
  all_goals first
    | exact absurd hd (List.not_mem_nil d)
    | (simp only [List.mem_singleton] at hd; subst hd;
       exact ⟨rfl, by decide, by decide⟩)

theorem notCopyTags_checkEnhancedMonitoring (n : RDSNode) :
    NotCopyTagsDiag (RDSComplianceChecker.checkEnhancedMonitoring n) := by
  intro d hd
  unfold RDSComplianceChecker.checkEnhancedMonitoring at hd
  repeat' split at hd
  all_goals first
    | exact absurd hd (List.not_mem_nil d)
    | (simp only [List.mem_singleton] at hd; subst hd;
       exact ⟨rfl, by decide, by decide⟩)

theorem notCopyTags_checkDeletionProtection (n : RDSNode) :
    NotCopyTagsDiag (RDSComplianceChecker.checkDeletionProtection n) := by
  intro d hd
  unfold RDSComplianceChecker.checkDeletionProtection at hd
  repeat' split at hd
  all_goals first
    | exact absurd hd (List.not_mem_nil d)
    | (simp only [List.mem_singleton] at hd; subst hd;
       exact ⟨rfl, by decide, by decide⟩)

theorem notCopyTags_checkLogExports (n : RDSNode) :
    NotCopyTagsDiag (RDSComplianceChecker.checkLogExports n) := by
  intro d hd
  unfold RDSComplianceChecker.checkLogExports RDSComplianceChecker.logExportsBody at hd
  repeat' split at hd
  all_goals first
    | exact absurd hd (List.not_mem_nil d)
    | (simp only [List.mem_singleton] at hd; subst hd;
       exact ⟨rfl, by decide, by decide⟩)

theorem notCopyTags_checkIAMAuthentication (n : RDSNode) :
    NotCopyTagsDiag (RDSComplianceChecker.checkIAMAuthentication n) := by
  intro d hd
  unfold RDSComplianceChecker.checkIAMAuthentication at hd
  repeat' split at hd
  all_goals first
    | exact absurd hd (List.not_mem_nil d)
    | (simp only [List.mem_singleton] at hd; subst hd;
       exact ⟨rfl, by decide, by decide⟩)

theorem notCopyTags_checkMinorVersionUpgrades (n : RDSNode) :
    NotCopyTagsDiag (RDSComplianceChecker.checkMinorVersionUpgrades n) := by
  intro d hd
  unfold RDSComplianceChecker.checkMinorVersionUpgrades at hd
  repeat' split at hd
  all_goals first
    | exact absurd hd (List.not_mem_nil d)
    | (simp only [List.mem_singleton] at hd; subst hd;
       exact ⟨rfl, by decide, by decide⟩)

theorem copyTags_shape (n : RDSNode) :
    RDSComplianceChecker.checkCopyTagsToSnapshot n = [] ∨
    RDSComplianceChecker.checkCopyTagsToSnapshot n =
      [⟨Severity.warning, rds16Msg⟩] ∨
    RDSComplianceChecker.checkCopyTagsToSnapshot n =
      [⟨Severity.warning, rds17Msg⟩] := by
  unfold RDSComplianceChecker.checkCopyTagsToSnapshot
  repeat' split
  all_goals simp


theorem fullAdmin_ok_shape (p : CfnPolicy) (ds : List Diagnostic)
    (h : IAMPolicyComplianceChecker.checkIAMPolicyFullAdmin p = .ok ds) :
    ds = [] ∨ ds = [⟨Severity.error, iam1Msg⟩] := by
  unfold IAMPolicyComplianceChecker.checkIAMPolicyFullAdmin at h
  split at h
  · left
    injection h with h2
    exact h2.symm
  · split at h
    · exact Except.noConfusion h
    · injection h with h2
      rename_i b heq
      subst h2
      cases b
      · left; rfl
      · right; rfl

theorem wildcards_ok_shape (p : CfnPolicy) (ds : List Diagnostic)
    (h : IAMPolicyComplianceChecker.checkIAMPolicyServiceWildcards p = .ok ds) :
    ds = [] ∨ ds = [⟨Severity.error, iam21Msg⟩] := by
  unfold IAMPolicyComplianceChecker.checkIAMPolicyServiceWildcards at h
  split at h
  · left
    injection h with h2
    exact h2.symm
  · split at h
    · exact Except.noConfusion h
    · injection h with h2
      rename_i b heq
      subst h2
      cases b
      · left; rfl
      · right; rfl

theorem iam_ok_notCopyTags (cfg : Option IAMConfig) (p : CfnPolicy)
    (r : List Diagnostic)
    (h : IAMPolicyComplianceChecker.checkCompliance cfg p = .ok r) :
    NotCopyTagsDiag r := by
  unfold IAMPolicyComplianceChecker.checkCompliance at h
  split at h
  · exact Except.noConfusion h
  · rename_i d1 heq1
    split at h
    · exact Except.noConfusion h
    · rename_i d2 heq2
      injection h with h2
      subst h2
      have h1 : d1 = [] ∨ d1 = [⟨Severity.error, iam1Msg⟩] := by
        split at heq1
        · exact fullAdmin_ok_shape p d1 heq1
        · left
          injection heq1 with h3
          exact h3.symm
      have h2 : d2 = [] ∨ d2 = [⟨Severity.error, iam21Msg⟩] := by
        split at heq2
        · exact wildcards_ok_shape p d2 heq2
        · left
          injection heq2 with h3
          exact h3.symm
      intro d hd
      rcases List.mem_append.1 hd with hm | hm
      · rcases h1 with h1 | h1 <;> subst h1
        · exact absurd hm (List.not_mem_nil d)
        · simp only [List.mem_singleton] at hm
          subst hm
          exact ⟨rfl, by decide, by decide⟩
      · rcases h2 with h2 | h2 <;> subst h2
        · exact absurd hm (List.not_mem_nil d)
        · simp only [List.mem_singleton] at hm
          subst hm
          exact ⟨rfl, by decide, by decide⟩

end AwsFsbp

namespace AwsFsbp

/-! ## Claim theorems -/

/-- Claim C1, counterexample: the S3 gate resolves a missing `s3` category (or
missing `serverSideEncryption` leaf) to falsy, so the server-side-encryption
check does NOT run on a maximally non-compliant bucket — although running the
check directly emits the S3.4 error.  This refutes the claim that every rule,
including the S3 one, treats a missing category object or leaf key as
enabled. -/
theorem s3_gate_missing_key_disables_check :
    S3ComplianceChecker.checkCompliance none (.bucket noEncryptionBucket) = [] ∧
    S3ComplianceChecker.checkCompliance (some ⟨none, none⟩)
      (.bucket noEncryptionBucket) = [] ∧
    S3ComplianceChecker.checkServerSideEncryption (.bucket noEncryptionBucket) =
      [⟨Severity.error, s3_4Msg⟩] :=
  ⟨rfl, rfl, rfl⟩

/-- Claim C1, amended: a configuration that omits the category object (modelled
as `none`), and likewise one that supplies the category object but omits every
leaf key (modelled as a category record whose leaves are all `none`), behaves
exactly as all-enabled for the API Gateway, Auto Scaling, DynamoDB, IAM,
Lambda and RDS rule groups; but for the S3 rule group a missing category or
missing leaf keys disable both checks (the S3 gates lack the `?? true`
fallback). -/
theorem config_missing_defaults_enabled_except_s3 :
    (∀ s, ApiGatewayComplianceChecker.checkCompliance none s =
        ApiGatewayComplianceChecker.checkCompliance (some allTrueApiGatewayConfig) s ∧
      ApiGatewayComplianceChecker.checkCompliance (some ⟨none, none, none, none⟩) s =
        ApiGatewayComplianceChecker.checkCompliance (some allTrueApiGatewayConfig) s) ∧
    (∀ g, AutoScalingGroupComplianceChecker.checkCompliance none g =
        AutoScalingGroupComplianceChecker.checkCompliance (some ⟨some true⟩) g ∧
      AutoScalingGroupComplianceChecker.checkCompliance (some ⟨none⟩) g =
        AutoScalingGroupComplianceChecker.checkCompliance (some ⟨some true⟩) g) ∧
    (∀ t, DynamoDBComplianceChecker.checkCompliance none t =
        DynamoDBComplianceChecker.checkCompliance (some ⟨some true, some true⟩) t ∧
      DynamoDBComplianceChecker.checkCompliance (some ⟨none, none⟩) t =
        DynamoDBComplianceChecker.checkCompliance (some ⟨some true, some true⟩) t) ∧
    (∀ p, IAMPolicyComplianceChecker.checkCompliance none p =
        IAMPolicyComplianceChecker.checkCompliance (some ⟨some true, some true⟩) p ∧
      IAMPolicyComplianceChecker.checkCompliance (some ⟨none, none⟩) p =
        IAMPolicyComplianceChecker.checkCompliance (some ⟨some true, some true⟩) p) ∧
    (∀ f, LambdaComplianceChecker.checkCompliance none f =
        LambdaComplianceChecker.checkCompliance (some ⟨some true⟩) f ∧
      LambdaComplianceChecker.checkCompliance (some ⟨none⟩) f =
        LambdaComplianceChecker.checkCompliance (some ⟨some true⟩) f) ∧
    (∀ n, RDSComplianceChecker.checkCompliance none n =
        RDSComplianceChecker.checkCompliance (some allTrueRDSConfig) n ∧
      RDSComplianceChecker.checkCompliance
          (some ⟨none, none, none, none, none, none, none, none, none⟩) n =
        RDSComplianceChecker.checkCompliance (some allTrueRDSConfig) n) ∧
    (∀ n, S3ComplianceChecker.checkCompliance none n = [] ∧
      S3ComplianceChecker.checkCompliance (some ⟨none, none⟩) n = []) :=
  ⟨fun _ => ⟨rfl, rfl⟩, fun _ => ⟨rfl, rfl⟩, fun _ => ⟨rfl, rfl⟩,
   fun _ => ⟨rfl, rfl⟩, fun _ => ⟨rfl, rfl⟩, fun _ => ⟨rfl, rfl⟩,
   fun _ => ⟨rfl, rfl⟩⟩

/-- Claim C2, counterexample: visiting an IAM policy whose document has a
statements list with an Allow statement lacking its `action` array makes the
engine throw (the full-admin check calls `.some` on `undefined`), refuting the
claim that evaluation completes without throwing for every input node. -/
theorem visit_throws_on_malformed_policy :
    AWSFoundationalSecurityBestPracticesChecker.visit
      AWSFoundationalSecurityBestPracticesChecker.defaultFSBPConfig
      (.policy malformedPolicy) = .error () := rfl

/-- Claim C2, amended: for every configuration and every node, `visit`
completes and only returns diagnostics, provided that a policy node is well
formed (every statement carries its `action` and `resource` arrays); all
other variants — recognized, unrecognized, or malformed — never throw. -/
theorem visit_total_unless_malformed_policy
    (cfg : AWSFoundationalSecurityBestPracticesChecker.FSBPConfig)
    (n : AWSFoundationalSecurityBestPracticesChecker.Node)
    (h : ∀ p, n = .policy p → WellFormedPolicy p) :
    ∃ ds, AWSFoundationalSecurityBestPracticesChecker.visit cfg n = .ok ds := by
  cases n with
  | policy p => exact checkCompliance_iam_isOk cfg.iam p (h p rfl)
  | restApi => exact ⟨_, rfl⟩
  | stage s => exact ⟨_, rfl⟩
  | lambdaFunction f => exact ⟨_, rfl⟩
  | dbInstance i => exact ⟨_, rfl⟩
  | dbCluster c => exact ⟨_, rfl⟩
  | dynamoTable t => exact ⟨_, rfl⟩
  | unrecognized => exact ⟨_, rfl⟩

/-- Claim C2, witness: the amended theorem applied to a concrete well-formed
policy node. -/
theorem visit_total_unless_malformed_policy_witness :
    ∃ ds, AWSFoundationalSecurityBestPracticesChecker.visit
      AWSFoundationalSecurityBestPracticesChecker.defaultFSBPConfig
      (.policy wellFormedAdminPolicy) = .ok ds :=
  visit_total_unless_malformed_policy _ _
    (by
      intro p hp
      injection hp with h
      subst h
      intro stmts hs
      injection hs with h2
      subst h2
      intro s hs
      simp only [List.mem_singleton] at hs
      subst hs
      exact ⟨rfl, rfl⟩)

/-- Claim C3, counterexample: a DB instance whose `publiclyAccessible` is in
the Unresolved state DOES get the RDS.2 diagnostic (an `IResolvable` token is
a truthy object and the check has no `isResolvableObject` guard), refuting the
claim that Unresolved is treated as not raising. -/
theorem rds2_raises_on_unresolved_public_access :
    RDSComplianceChecker.checkRDSPublicAccess (.inst unresolvedPublicInstance) =
      [⟨Severity.error, rds2Msg⟩] := rfl

/-- Claim C3, amended: the RDS.2 diagnostic is raised exactly when the node is
a DB instance (never a cluster) whose `publiclyAccessible` is truthy under
JavaScript semantics — `undefined` and concrete `false` do not raise, while
concrete `true` and an Unresolved token (a truthy object) do raise. -/
theorem rds2_iff_truthy_public_access (n : RDSNode) :
    (Diagnostic.mk Severity.error rds2Msg) ∈
        RDSComplianceChecker.checkRDSPublicAccess n ↔
      ∃ i, n = RDSNode.inst i ∧ truthy i.publiclyAccessible = true := by
  cases n with
  | inst i =>
      cases h : truthy i.publiclyAccessible with
      | false => simp [RDSComplianceChecker.checkRDSPublicAccess, h]
      | true =>
          simp only [RDSComplianceChecker.checkRDSPublicAccess, h, if_true]
          constructor
          · intro _; exact ⟨i, rfl, h⟩
          · intro _; simp
  | clus c => simp [RDSComplianceChecker.checkRDSPublicAccess]

/-- Claim C4: for every unrecognized engine name the log-export whitelist
resolves to the literal list `["invalid"]`, and consequently any cluster — or
any instance not in a cluster — with a non-empty declared export list
containing a string other than `"invalid"` gets the RDS.9 diagnostic. -/
theorem unknown_engine_whitelist_is_invalid (e : String)
    (he : e ∉ recognizedEngines) :
    expectedLogTypes (some e) = ["invalid"] ∧
    (∀ (c : CfnDBCluster) (exports : List String) (x : String),
       c.engine = some e → c.enableCloudwatchLogsExports = some exports →
       x ∈ exports → x ≠ "invalid" →
       Diagnostic.mk Severity.error rds9Msg ∈
         RDSComplianceChecker.checkLogExports (.clus c)) ∧
    (∀ (i : CfnDBInstance) (exports : List String) (x : String),
       i.dbClusterIdentifier = none → i.engine = some e →
       i.enableCloudwatchLogsExports = some exports →
       x ∈ exports → x ≠ "invalid" →
       Diagnostic.mk Severity.error rds9Msg ∈
         RDSComplianceChecker.checkLogExports (.inst i)) := by
  simp only [recognizedEngines, List.mem_cons, List.not_mem_nil, or_false,
    not_or] at he
  obtain ⟨h1, h2, h3, h4, h5, h6, h7, h8, h9, h10, h11, h12⟩ := he
  have hmain : expectedLogTypes (some e) = ["invalid"] := by
    simp [expectedLogTypes, h1, h2, h3, h4, h5, h6, h7, h8, h9, h10, h11, h12]
  have hbody : ∀ (exports : List String) (x : String), x ∈ exports → x ≠ "invalid" →
      RDSComplianceChecker.logExportsBody (some exports) (some e) =
        [⟨Severity.error, rds9Msg⟩] := by
    intro exports x hx hxne
    have hlen : ¬ exports.length = 0 := by
      intro h0
      rw [List.length_eq_zero] at h0
      subst h0
      simp at hx
    have hall : exports.all
        (fun log => (expectedLogTypes (some e)).contains log) = false := by
      cases hc : exports.all
          (fun log => (expectedLogTypes (some e)).contains log) with
      | false => rfl
      | true =>
          exfalso
          have := List.all_eq_true.1 hc x hx
          rw [hmain] at this
          simp at this
          exact hxne this
    have hcond : ¬ (exports.all
        (fun log => (expectedLogTypes (some e)).contains log) = true) := by
      rw [hall]
      simp
    simp only [RDSComplianceChecker.logExportsBody, if_neg hlen, if_neg hcond]
  refine ⟨hmain, ?_, ?_⟩
  · intro c exports x hce hcl hx hxne
    simp only [RDSComplianceChecker.checkLogExports, hcl, hce,
      hbody exports x hx hxne, List.mem_singleton]
  · intro i exports x hid hie hil hx hxne
    simp only [RDSComplianceChecker.checkLogExports, hid, hie, hil, if_true]
    rw [hbody exports x hx hxne]
    simp

/-- Claim C4, witness: the theorem applied at the unrecognized engine
`"mongodb"` with declared exports `["error"]`. -/
theorem unknown_engine_whitelist_is_invalid_witness :
    expectedLogTypes (some "mongodb") = ["invalid"] ∧
    Diagnostic.mk Severity.error rds9Msg ∈
      RDSComplianceChecker.checkLogExports (.clus mongoCluster) :=
  ⟨(unknown_engine_whitelist_is_invalid "mongodb" (by decide)).1,
   (unknown_engine_whitelist_is_invalid "mongodb" (by decide)).2.1
     mongoCluster ["error"] "error" rfl rfl (by decide) (by decide)⟩

/-- Claim C5: with all RDS rules enabled, visiting the concrete scenario
instance (publicly accessible, otherwise fully compliant, engine
`sqlserver-ee` with exports `["error"]`) yields exactly one diagnostic — the
RDS.2 public-access error with its exact message. -/
theorem rds_scenario_exactly_rds2 :
    RDSComplianceChecker.checkCompliance (some allTrueRDSConfig)
      (.inst scenarioInstance) = [⟨Severity.error, rds2Msg⟩] := by decide

end AwsFsbp

namespace AwsFsbp

/-- Claim C6: a policy whose only Allow statement has action list `["*"]` but
a resource list with no literal `"*"` member raises neither IAM.1 (both arrays
need a literal `"*"` member — the raises-only-if conjuncts make that
requirement exact for every policy) nor IAM.21 (a plain `"*"` action does not
end with `":*"`). -/
theorem iam_wildcard_action_needs_wildcard_resource
    (resources : List String) (hr : "*" ∉ resources) :
    (IAMPolicyComplianceChecker.checkIAMPolicyFullAdmin
       ⟨⟨some [⟨.allow, some ["*"], some resources⟩]⟩⟩ = .ok []) ∧
    (IAMPolicyComplianceChecker.checkIAMPolicyServiceWildcards
       ⟨⟨some [⟨.allow, some ["*"], some resources⟩]⟩⟩ = .ok []) ∧
    (jsEndsWith "*" ":*" = false) ∧
    (∀ (p : CfnPolicy) (stmts : List PolicyStatement),
       p.policyDocument.statements = some stmts →
       IAMPolicyComplianceChecker.checkIAMPolicyFullAdmin p =
         .ok [⟨Severity.error, iam1Msg⟩] →
       ∃ s ∈ stmts, s.effect = .allow ∧
         (∃ acts, s.action = some acts ∧ "*" ∈ acts) ∧
         (∃ rs, s.resource = some rs ∧ "*" ∈ rs)) ∧
    (∀ (p : CfnPolicy) (stmts : List PolicyStatement),
       p.policyDocument.statements = some stmts →
       IAMPolicyComplianceChecker.checkIAMPolicyServiceWildcards p =
         .ok [⟨Severity.error, iam21Msg⟩] →
       ∃ s ∈ stmts, s.effect = .allow ∧
         ∃ acts, s.action = some acts ∧ ∃ a ∈ acts, jsEndsWith a ":*" = true) := by
  have hany : resources.any (· == "*") = false := by
    cases hc : resources.any (· == "*") with
    | false => rfl
    | true =>
        exfalso
        obtain ⟨r, hrr, hre⟩ := List.any_eq_true.1 hc
        rw [beq_iff_eq] at hre
        exact hr (hre ▸ hrr)
  refine ⟨?_, rfl, rfl, checkIAMPolicyFullAdmin_raises_only_if,
    checkIAMPolicyServiceWildcards_raises_only_if⟩
  have hcheck : IAMPolicyComplianceChecker.fullAdminStatementCheck
      ⟨.allow, some ["*"], some resources⟩ = .ok (resources.any (· == "*")) := rfl
  have hstep : IAMPolicyComplianceChecker.fullAdminStatementCheck
      ⟨.allow, some ["*"], some resources⟩ = .ok false := by
    rw [hcheck, hany]
  have hjs : jsSome IAMPolicyComplianceChecker.fullAdminStatementCheck
      [⟨.allow, some ["*"], some resources⟩] = .ok false := by
    simp only [jsSome, hstep]
  simp [IAMPolicyComplianceChecker.checkIAMPolicyFullAdmin, hjs]

/-- Claim C6, witness: the theorem applied at a concrete non-wildcard resource
list. -/
theorem iam_wildcard_action_needs_wildcard_resource_witness :
    IAMPolicyComplianceChecker.checkIAMPolicyFullAdmin
      ⟨⟨some [⟨.allow, some ["*"], some sampleNonWildcardResources⟩]⟩⟩ = .ok [] ∧
    IAMPolicyComplianceChecker.checkIAMPolicyServiceWildcards
      ⟨⟨some [⟨.allow, some ["*"], some sampleNonWildcardResources⟩]⟩⟩ = .ok [] :=
  ⟨(iam_wildcard_action_needs_wildcard_resource sampleNonWildcardResources
      (by decide)).1,
   (iam_wildcard_action_needs_wildcard_resource sampleNonWildcardResources
      (by decide)).2.1⟩

/-- Claim C7: across the whole rule catalogue, every diagnostic of every rule
group is an error, except that the RDS copy-tags-to-snapshot rule — and only
it — emits warnings: a warning diagnostic of the RDS group carries exactly the
RDS.16 (cluster) or RDS.17 (instance not in a cluster) message, those two
messages are distinct, and falsy `copyTagsToSnapshot` produces exactly those
warnings. -/
theorem copy_tags_only_warning_rule :
    (∀ cfg s d, d ∈ ApiGatewayComplianceChecker.checkCompliance cfg s →
       d.severity = Severity.error) ∧
    (∀ cfg g d, d ∈ AutoScalingGroupComplianceChecker.checkCompliance cfg g →
       d.severity = Severity.error) ∧
    (∀ cfg t d, d ∈ DynamoDBComplianceChecker.checkCompliance cfg t →
       d.severity = Severity.error) ∧
    (∀ cfg p r d, IAMPolicyComplianceChecker.checkCompliance cfg p = .ok r →
       d ∈ r → d.severity = Severity.error) ∧
    (∀ cfg f d, d ∈ LambdaComplianceChecker.checkCompliance cfg f →
       d.severity = Severity.error) ∧
    (∀ cfg n d, d ∈ S3ComplianceChecker.checkCompliance cfg n →
       d.severity = Severity.error) ∧
    (∀ cfg n d, d ∈ RDSComplianceChecker.checkCompliance cfg n →
       (d.severity = Severity.warning ↔
         (d.message = rds16Msg ∨ d.message = rds17Msg))) ∧
    (∀ c : CfnDBCluster, truthy c.copyTagsToSnapshot = false →
       RDSComplianceChecker.checkCopyTagsToSnapshot (.clus c) =
         [⟨Severity.warning, rds16Msg⟩]) ∧
    (∀ i : CfnDBInstance, truthy i.copyTagsToSnapshot = false →
       i.dbClusterIdentifier = none →
       RDSComplianceChecker.checkCopyTagsToSnapshot (.inst i) =
         [⟨Severity.warning, rds17Msg⟩]) ∧
    rds16Msg ≠ rds17Msg := by
  refine ⟨?_, ?_, ?_, ?_, ?_, ?_, ?_, ?_, ?_, by decide⟩
  · intro cfg s d hd
    unfold ApiGatewayComplianceChecker.checkCompliance at hd
    simp only [List.mem_append] at hd
    rcases hd with ((hm | hm) | hm) | hm
    · exact (notCopyTags_checkAPILogging s d (mem_of_mem_ite hm)).1
    · exact (notCopyTags_checkSSL s d (mem_of_mem_ite hm)).1
    · exact (notCopyTags_checkXRay s d (mem_of_mem_ite hm)).1
    · exact (notCopyTags_checkCacheEncrypted s d (mem_of_mem_ite hm)).1
  · intro cfg g d hd
    unfold AutoScalingGroupComplianceChecker.checkCompliance at hd
    exact (notCopyTags_checkLoadBalancerHealthCheck g d (mem_of_mem_ite hd)).1
  · intro cfg t d hd
    unfold DynamoDBComplianceChecker.checkCompliance at hd
    simp only [List.mem_append] at hd
    rcases hd with hm | hm
    · exact (notCopyTags_checkAutoScaling t d (mem_of_mem_ite hm)).1
    · exact (notCopyTags_checkPointInTimeRecovery t d (mem_of_mem_ite hm)).1
  · intro cfg p r d h hd
    exact (iam_ok_notCopyTags cfg p r h d hd).1
  · intro cfg f d hd
    unfold LambdaComplianceChecker.checkCompliance at hd
    exact (notCopyTags_checkLambdaSupportedRuntime f d (mem_of_mem_ite hd)).1
  · intro cfg n d hd
    unfold S3ComplianceChecker.checkCompliance at hd
    split at hd
    · exact (notCopyTags_checkServerSideEncryption n d hd).1
    · split at hd
      · exact (notCopyTags_checkSSL_s3 n d hd).1
      · exact absurd hd (List.not_mem_nil d)
  · intro cfg n d hd
    unfold RDSComplianceChecker.checkCompliance at hd
    simp only [List.mem_append] at hd
    rcases hd with ((((((((hm | hm) | hm) | hm) | hm) | hm) | hm) | hm) | hm)
    · obtain ⟨he, h16, h17⟩ := notCopyTags_checkRDSPublicAccess n d (mem_of_mem_ite hm)
      refine iff_of_false ?_ ?_
      · intro hcon; rw [he] at hcon; exact Severity.noConfusion hcon
      · rintro (hcon | hcon)
        exacts [h16 hcon, h17 hcon]
    · obtain ⟨he, h16, h17⟩ := notCopyTags_checkRDSEncryption n d (mem_of_mem_ite hm)
      refine iff_of_false ?_ ?_
      · intro hcon; rw [he] at hcon; exact Severity.noConfusion hcon
      · rintro (hcon | hcon)
        exacts [h16 hcon, h17 hcon]
    · obtain ⟨he, h16, h17⟩ := notCopyTags_checkMultipleAZs n d (mem_of_mem_ite hm)
      refine iff_of_false ?_ ?_
      · intro hcon; rw [he] at hcon; exact Severity.noConfusion hcon
      · rintro (hcon | hcon)
        exacts [h16 hcon, h17 hcon]
    · obtain ⟨he, h16, h17⟩ := notCopyTags_checkEnhancedMonitoring n d (mem_of_mem_ite hm)
      refine iff_of_false ?_ ?_
      · intro hcon; rw [he] at hcon; exact Severity.noConfusion hcon
      · rintro (hcon | hcon)
        exacts [h16 hcon, h17 hcon]
    · obtain ⟨he, h16, h17⟩ := notCopyTags_checkDeletionProtection n d (mem_of_mem_ite hm)
      refine iff_of_false ?_ ?_
      · intro hcon; rw [he] at hcon; exact Severity.noConfusion hcon
      · rintro (hcon | hcon)
        exacts [h16 hcon, h17 hcon]
    · obtain ⟨he, h16, h17⟩ := notCopyTags_checkLogExports n d (mem_of_mem_ite hm)
      refine iff_of_false ?_ ?_
      · intro hcon; rw [he] at hcon; exact Severity.noConfusion hcon
      · rintro (hcon | hcon)
        exacts [h16 hcon, h17 hcon]
    · obtain ⟨he, h16, h17⟩ := notCopyTags_checkIAMAuthentication n d (mem_of_mem_ite hm)
      refine iff_of_false ?_ ?_
      · intro hcon; rw [he] at hcon; exact Severity.noConfusion hcon
      · rintro (hcon | hcon)
        exacts [h16 hcon, h17 hcon]
    · obtain ⟨he, h16, h17⟩ := notCopyTags_checkMinorVersionUpgrades n d (mem_of_mem_ite hm)
      refine iff_of_false ?_ ?_
      · intro hcon; rw [he] at hcon; exact Severity.noConfusion hcon
      · rintro (hcon | hcon)
        exacts [h16 hcon, h17 hcon]
    · have hm2 := mem_of_mem_ite hm
      rcases copyTags_shape n with h0 | h0 | h0 <;> rw [h0] at hm2
      · exact absurd hm2 (List.not_mem_nil d)
      · simp only [List.mem_singleton] at hm2
        subst hm2
        exact iff_of_true rfl (Or.inl rfl)
      · simp only [List.mem_singleton] at hm2
        subst hm2
        exact iff_of_true rfl (Or.inr rfl)
  · intro c h
    simp [RDSComplianceChecker.checkCopyTagsToSnapshot, h]
  · intro i h1 h2
    simp [RDSComplianceChecker.checkCopyTagsToSnapshot, h1, h2]

/-- Claim C7, witness: the theorem applied at a concrete cluster with
`copyTagsToSnapshot` explicitly `false`, yielding the RDS.16 warning. -/
theorem copy_tags_only_warning_rule_witness :
    RDSComplianceChecker.checkCopyTagsToSnapshot (.clus copyTagsOffCluster) =
      [⟨Severity.warning, rds16Msg⟩] :=
  copy_tags_only_warning_rule.2.2.2.2.2.2.2.1 copyTagsOffCluster rfl

/-- Claim C8: the RDS snapshot public-access check (RDS.1) and the Lambda
resource-policy public-access check (Lambda.1) are stubs: they emit nothing
for any node, and with every configurable rule disabled the RDS and Lambda
dispatch paths — which still invoke the stubs unconditionally — emit nothing
at all. -/
theorem stub_checks_never_raise :
    (∀ n, AWSFoundationalSecurityBestPracticesChecker.checkSnapshotPublicAccess n = []) ∧
    (∀ f, AWSFoundationalSecurityBestPracticesChecker.checkLambdaPublicAccess f = []) ∧
    (∀ n, AWSFoundationalSecurityBestPracticesChecker.checkRDSCompliance
      rdsAllOffFSBPConfig n = []) ∧
    (∀ f, AWSFoundationalSecurityBestPracticesChecker.checkLambdaCompliance
      rdsAllOffFSBPConfig f = []) :=
  ⟨fun _ => rfl, fun _ => rfl, fun _ => rfl, fun _ => rfl⟩

/-- Claim C9: a stage whose method-settings is a present, concrete empty list
gets no APIGateway.1 diagnostic; the diagnostic is raised exactly when
method-settings is absent, or is a concrete list containing a concrete entry
whose logging level is undefined or `"OFF"`. -/
theorem api_logging_empty_settings_pass :
    (∀ s : CfnStage, s.methodSettings = some (.concrete []) →
       ApiGatewayComplianceChecker.checkAPILogging s = []) ∧
    (∀ s : CfnStage,
       Diagnostic.mk Severity.error apiGateway1Msg ∈
           ApiGatewayComplianceChecker.checkAPILogging s ↔
         (s.methodSettings = none ∨
          ∃ ms, s.methodSettings = some (.concrete ms) ∧
            ∃ mc, Resolvable.concrete mc ∈ ms ∧
              (mc.loggingLevel = none ∨ mc.loggingLevel = some "OFF"))) := by
  constructor
  · intro s h
    simp [ApiGatewayComplianceChecker.checkAPILogging, h]
  · intro s
    cases hms : s.methodSettings with
    | none => simp [ApiGatewayComplianceChecker.checkAPILogging, hms]
    | some r =>
        cases r with
        | unresolved => simp [ApiGatewayComplianceChecker.checkAPILogging, hms]
        | concrete ms =>
            simp only [ApiGatewayComplianceChecker.checkAPILogging, hms]
            cases hany : ms.any (fun m =>
                match m with
                | .unresolved => false
                | .concrete mc =>
                    mc.loggingLevel == none || mc.loggingLevel == some "OFF") with
            | true =>
                apply iff_of_true
                · simp
                · right
                  refine ⟨ms, rfl, ?_⟩
                  obtain ⟨m, hm, hpred⟩ := List.any_eq_true.1 hany
                  cases m with
                  | unresolved => simp at hpred
                  | concrete mc =>
                      refine ⟨mc, hm, ?_⟩
                      have hpred2 : (mc.loggingLevel == none ||
                          mc.loggingLevel == some "OFF") = true := hpred
                      simpa only [Bool.or_eq_true, beq_iff_eq] using hpred2
            | false =>
                apply iff_of_false
                · simp
                · rintro (h | ⟨ms2, hms2, mc, hmem, hll⟩)
                  · exact Option.noConfusion h
                  · injection hms2 with h3
                    injection h3 with h4
                    subst h4
                    have hfalse := List.any_eq_false.1 hany (Resolvable.concrete mc) hmem
                    apply hfalse
                    show (mc.loggingLevel == none || mc.loggingLevel == some "OFF") = true
                    simp only [Bool.or_eq_true, beq_iff_eq]
                    exact hll

/-- Claim C9, witness: the theorem applied at a concrete stage with a present,
concrete empty method-settings list. -/
theorem api_logging_empty_settings_pass_witness :
    ApiGatewayComplianceChecker.checkAPILogging emptySettingsStage = [] :=
  api_logging_empty_settings_pass.1 emptySettingsStage rfl

/-- Claim C10: a `CfnTable` whose parent scope is not a higher-level `Table`
construct gets no DynamoDB.1 auto-scaling diagnostic, from the check itself or
through the gated rule-group dispatch, regardless of configuration. -/
theorem dynamo_autoscaling_skips_standalone_table
    (t : CfnTable) (cfg : Option DynamoDBConfig) (h : t.scope = .notTable) :
    DynamoDBComplianceChecker.checkAutoScaling t = [] ∧
    Diagnostic.mk Severity.error dynamoDB1Msg ∉
      DynamoDBComplianceChecker.checkCompliance cfg t := by
  have h1 : DynamoDBComplianceChecker.checkAutoScaling t = [] := by
    simp [DynamoDBComplianceChecker.checkAutoScaling, h]
  refine ⟨h1, ?_⟩
  intro hmem
  have hpitr : ∀ d ∈ DynamoDBComplianceChecker.checkPointInTimeRecovery t,
      d = ⟨Severity.error, dynamoDB2Msg⟩ := by
    intro d hd
    unfold DynamoDBComplianceChecker.checkPointInTimeRecovery at hd
    repeat' split at hd
    all_goals simp_all
  unfold DynamoDBComplianceChecker.checkCompliance at hmem
  rcases List.mem_append.1 hmem with hm | hm
  · split at hm
    · rw [h1] at hm
      exact List.not_mem_nil _ hm
    · exact List.not_mem_nil _ hm
  · split at hm
    · have := hpitr _ hm
      have hne : dynamoDB1Msg ≠ dynamoDB2Msg := by decide
      injection this with _ hmsg
      exact hne hmsg
    · exact List.not_mem_nil _ hm

/-- Claim C10, witness: the theorem applied at a concrete standalone table. -/
theorem dynamo_autoscaling_skips_standalone_table_witness :
    DynamoDBComplianceChecker.checkAutoScaling standaloneTable = [] ∧
    Diagnostic.mk Severity.error dynamoDB1Msg ∉
      DynamoDBComplianceChecker.checkCompliance none standaloneTable :=
  dynamo_autoscaling_skips_standalone_table standaloneTable none rfl

end AwsFsbp
